import Mathlib

/-!
Shallow embedding of the OCRPRO.XYZ server and client logic.

The embedding follows the TypeScript source:
- the Azure read-API poll loop (pollForResult) and its constants;
- the recognition-result normalizer (extractTextFromResult);
- the upload dispatch of the /api/ocr route (content types, unsupported types);
- the access gate (hasValidAccess) and the /api/ocr authorization check;
- the Stripe webhook handler (signature check, idempotent entitlement grant);
- the client-side text-file combiner (handleCombineFiles).

JavaScript strings are modelled as Lean String; machine timestamps as Int
(milliseconds); database tables as lists of records in insertion order.
-/

/-- Whitespace class used by the JavaScript String.prototype.trim for the
ASCII characters that occur in this development: space, tab, carriage
return and line feed. -/
def isJsWs (c : Char) : Bool := c == ' ' || c == '\t' || c == '\r' || c == '\n'

/-- Embedding of the JavaScript String.prototype.trim: remove leading and
trailing whitespace characters. -/
def jsTrim (s : String) : String :=
  String.mk (((s.data.dropWhile isJsWs).reverse.dropWhile isJsWs).reverse)

/-- Embedding of the JavaScript Array.prototype.join with a given
separator: empty string on the empty array, otherwise the elements in
order with the separator between consecutive elements. -/
def jsJoin (sep : String) : List String → String
  | [] => ""
  | [x] => x
  | x :: y :: rest => x ++ sep ++ jsJoin sep (y :: rest)

/-! Data model of the Azure read-API response body. The normalizer reads
result.analyzeResult?.readResults, each page its lines, each line its text;
absent fields are modelled with Option, mirroring the optional chaining and
the fallbacks (page.lines || [], readResults || []) in the source. -/

/-- One recognized line of the Azure read result. -/
structure ReadLine where
  text : String
deriving DecidableEq

/-- One recognized page of the Azure read result; the lines field may be
absent. -/
structure ReadPage where
  lines : Option (List ReadLine)
deriving DecidableEq

/-- The analyzeResult object; the readResults field may be absent. -/
structure AnalyzeResult where
  readResults : Option (List ReadPage)
deriving DecidableEq

/-- A response body of the Azure read API: a status string and an optional
analyzeResult payload. -/
structure OcrResult where
  status : String
  analyzeResult : Option AnalyzeResult
deriving DecidableEq

/-- The page list the normalizer iterates over:
result.analyzeResult?.readResults || []. -/
def readResultsOf (result : OcrResult) : List ReadPage :=
  match result.analyzeResult with
  | none => []
  | some ar => ar.readResults.getD []

/-- Return value of extractTextFromResult: the extracted text and the page
count. -/
structure Extracted where
  text : String
  pages : Nat
deriving DecidableEq

/-- Body of the inner loop of extractTextFromResult: for each line of the
page append line.text and a newline, then append one more newline after
the page. -/
def pageAppend (acc : String) (page : ReadPage) : String :=
  ((page.lines.getD []).foldl (fun a l => a ++ l.text ++ "\n") acc) ++ "\n"

/-- Embedding of extractTextFromResult: concatenate every line of every
page, each line followed by a line break and each page followed by one
extra line break, trim the result, and report the number of pages. -/
def extractTextFromResult (result : OcrResult) : Extracted :=
  let pages := readResultsOf result
  let extractedText := pages.foldl pageAppend ""
  { text := jsTrim extractedText, pages := pages.length }

/-- Stated from the specification text, for comparison with the code:
the text of one page is its lines joined with line breaks. -/
def specPageText (page : ReadPage) : String :=
  jsJoin "\n" ((page.lines.getD []).map ReadLine.text)

/-- Stated from the specification text, for comparison with the code: the
normalized output is the pages, each page its lines joined with line
breaks, separated by a blank line, with leading and trailing whitespace
trimmed from the final result. -/
def specNormalizeText (result : OcrResult) : String :=
  jsTrim (jsJoin "\n\n" ((readResultsOf result).map specPageText))

/-! The poll loop. -/

/-- Maximum number of polling attempts (2 minutes at 1 second intervals). -/
def MAX_POLLING_ATTEMPTS : Nat := 120

/-- Delay before each status query, in milliseconds. -/
def POLLING_INTERVAL : Nat := 1000

/-- Statuses on which the loop keeps polling: running and notStarted. -/
def isNonTerminal (s : String) : Bool := s == "running" || s == "notStarted"

/-- Observable side effects of the poll loop: a timer sleep of the given
number of milliseconds, or a status query (the idx-th GET, counting from
zero) to the operation location. -/
inductive PollEvent where
  | delay (ms : Nat)
  | query (idx : Nat)
deriving DecidableEq

/-- Outcome of the poll loop: the returned response body on success, an
error naming the terminal status on failure, or a timeout error once the
attempt bound is exhausted. -/
inductive PollOutcome where
  | payload (r : OcrResult)
  | recognitionFailed (status : String)
  | recognitionTimeout
deriving DecidableEq

/-- One unrolling of the while loop of pollForResult, entered with a
non-terminal current status. The fuel argument is the number of attempts
still allowed (MAX_POLLING_ATTEMPTS minus the attempts counter): when it
reaches zero the loop throws the timeout error; otherwise it sleeps for
POLLING_INTERVAL, issues the next status query, and either loops on a
non-terminal status or stops, returning the response body when the status
is succeeded and the failure error naming the status otherwise. The
environment is abstracted as the function responses, giving the body of
the i-th status query. -/
def pollAux (responses : Nat → OcrResult) : Nat → Nat → List PollEvent × PollOutcome
  | 0, _ => ([], .recognitionTimeout)
  | fuel + 1, attempts =>
    let r := responses attempts
    if isNonTerminal r.status then
      let rest := pollAux responses fuel (attempts + 1)
      (.delay POLLING_INTERVAL :: .query attempts :: rest.1, rest.2)
    else
      ([.delay POLLING_INTERVAL, .query attempts],
        if r.status == "succeeded" then .payload r else .recognitionFailed r.status)

/-- Embedding of pollForResult: the loop starts with the attempts counter
at zero and the synthetic status running, so it always issues at least one
query. Returns the emitted events and the outcome. -/
def pollForResult (responses : Nat → OcrResult) : List PollEvent × PollOutcome :=
  pollAux responses MAX_POLLING_ATTEMPTS 0

/-- Number of status queries the loop issues, mirroring the recursion of
pollAux. -/
def queryCountAux (responses : Nat → OcrResult) : Nat → Nat → Nat
  | 0, _ => 0
  | fuel + 1, attempts =>
    if isNonTerminal (responses attempts).status then
      queryCountAux responses fuel (attempts + 1) + 1
    else
      1

/-- Number of status queries pollForResult issues. -/
def queryCount (responses : Nat → OcrResult) : Nat :=
  queryCountAux responses MAX_POLLING_ATTEMPTS 0

/-! Submission to the external recognition endpoint. -/

/-- Content-Type header set by extractTextFromPdf when submitting to the
Azure read endpoint. -/
def pdfSubmitContentType : String := "application/pdf"

/-- Content-Type header set by extractTextFromImage when submitting to the
Azure read endpoint. -/
def imageSubmitContentType : String := "application/octet-stream"

/-- Action the /api/ocr route takes for a declared media type: call
extractTextFromPdf (outbound request with the PDF content type), call
extractTextFromImage (outbound request with the image content type),
return the decoded bytes directly (plain text, no outbound request), or
reject with a 400 error and no outbound request. -/
inductive OcrAction where
  | submitPdf
  | submitImage
  | returnLocalText
  | rejectUnsupported (message : String)
deriving DecidableEq

/-- Error message of the unsupported-type rejection, listing the accepted
types. -/
def UNSUPPORTED_MESSAGE : String :=
  "Unsupported file type. Please upload PDF, PNG, JPG, or TXT files."

/-- Embedding of the media-type dispatch of the /api/ocr route. -/
def ocrDispatch (mimetype : String) : OcrAction :=
  if mimetype == "application/pdf" then .submitPdf
  else if mimetype == "image/png" || mimetype == "image/jpeg" || mimetype == "image/jpg" then
    .submitImage
  else if mimetype == "text/plain" then .returnLocalText
  else .rejectUnsupported UNSUPPORTED_MESSAGE

/-- Content-Type header of the outbound submission the dispatch causes,
none when no outbound request to the recognition service is made. -/
def submissionContentType (mimetype : String) : Option String :=
  match ocrDispatch mimetype with
  | .submitPdf => some pdfSubmitContentType
  | .submitImage => some imageSubmitContentType
  | .returnLocalText => none
  | .rejectUnsupported _ => none

/-! The payments table and the access gate. -/

/-- A row of the payments table: user reference, Stripe checkout-session
identifier, optional Stripe customer identifier, and expiry timestamp in
milliseconds. -/
structure Payment where
  userId : String
  stripeSessionId : String
  stripeCustomerId : Option String
  expiresAt : Int
deriving DecidableEq

/-- Embedding of hasValidAccess: select from payments where userId matches
and expiresAt is strictly greater than now, limit 1, and test whether any
row came back. -/
def hasValidAccess (now : Int) (userId : String) (db : List Payment) : Bool :=
  let validPayments :=
    (db.filter (fun p => p.userId == userId && decide (now < p.expiresAt))).take 1
  validPayments.length > 0

/-- Decision of the /api/ocr access check: proceed with the upload, or
reply 403 asking the caller to purchase access. -/
inductive GateDecision where
  | proceed
  | accessDenied
deriving DecidableEq

/-- Embedding of the access check at the top of the /api/ocr route: an
authenticated caller proceeds only with a live payment, an unauthenticated
caller always proceeds. -/
def ocrAccessGate (authenticatedUser : Option String) (now : Int) (db : List Payment) :
    GateDecision :=
  match authenticatedUser with
  | some userId => if hasValidAccess now userId db then .proceed else .accessDenied
  | none => .proceed

/-! The Stripe webhook. -/

/-- The fields of a Stripe checkout session the webhook handler reads: the
session identifier, the optional customer identifier, and the optional
userId entry of the session metadata. -/
structure CheckoutSession where
  id : String
  customer : Option String
  metadataUserId : Option String
deriving DecidableEq

/-- A verified Stripe event: its type string and its checkout-session
object. -/
structure StripeEvent where
  type : String
  session : CheckoutSession
deriving DecidableEq

/-- One day of access in milliseconds, the grant period of the webhook. -/
def GRANT_PERIOD_MS : Int := 86400000

/-- Embedding of the body of the checkout.session.completed branch: when
the metadata carries a userId, look up an existing payments row with the
same session identifier (limit 1); insert a fresh one-day grant only when
none exists. Without a userId nothing happens. -/
def grantEntitlement (now : Int) (session : CheckoutSession) (db : List Payment) :
    List Payment :=
  match session.metadataUserId with
  | none => db
  | some userId =>
    let existingPayment := (db.filter (fun p => p.stripeSessionId == session.id)).take 1
    if existingPayment.length == 0 then
      db ++ [{ userId := userId, stripeSessionId := session.id,
               stripeCustomerId := session.customer, expiresAt := now + GRANT_PERIOD_MS }]
    else db

/-- HTTP reply of the webhook route: a 400 rejection with a message, or
the acknowledgement body with received set to true. -/
inductive WebhookResponse where
  | badRequest (message : String)
  | acknowledged
deriving DecidableEq

/-- Embedding of the /api/stripe-webhook route. The Stripe signature
machinery is abstracted into four booleans: the signature header is
present, the webhook secret is configured, the raw request body is
available, and constructEvent accepts the signature. Only when all four
hold is the event trusted; a completed-checkout event then runs the grant,
and the route acknowledges receipt. -/
def stripeWebhook (sigPresent secretPresent rawBodyPresent sigValid : Bool)
    (event : StripeEvent) (now : Int) (db : List Payment) :
    WebhookResponse × List Payment :=
  if !sigPresent || !secretPresent then
    (.badRequest "Missing signature or webhook secret", db)
  else if !rawBodyPresent || !sigValid then
    (.badRequest "Webhook Error", db)
  else
    let db2 :=
      if event.type == "checkout.session.completed" then grantEntitlement now event.session db
      else db
    (.acknowledged, db2)

/-- Number of payments rows carrying a given Stripe session identifier. -/
def sessionCount (db : List Payment) (sid : String) : Nat :=
  (db.filter (fun p => p.stripeSessionId == sid)).length

/-! The final response of the /api/ocr route. -/

/-- Placeholder body returned when extraction produced no text. -/
def NO_TEXT_MESSAGE : String :=
  "No text could be extracted from this document. The image may not contain readable text or the scan quality may be too low."

/-- A 200 reply of the /api/ocr route: a text field and a page count. -/
structure OcrReply where
  text : String
  pages : Nat
deriving DecidableEq

/-- Embedding of the tail of the /api/ocr route: with the extracted text
and page count in hand, reply 200 with the placeholder message when the
text is empty and with the text itself otherwise. -/
def ocrRespond (text : String) (pages : Nat) : OcrReply :=
  if text.length == 0 then { text := NO_TEXT_MESSAGE, pages := pages }
  else { text := text, pages := pages }

/-! The client-side text-file combiner. -/

/-- A text file queued in the combiner, reduced to the content its text()
call yields. -/
structure TxtFile where
  content : String
deriving DecidableEq

/-- Separator the combiner places between consecutive files. -/
def FILE_SEPARATOR : String := "\n\n--- Next File ---\n\n"

/-- Embedding of handleCombineFiles: read every file in list order and
join the contents with the fixed separator. -/
def handleCombineFiles (txtFiles : List TxtFile) : String :=
  jsJoin FILE_SEPARATOR (txtFiles.map TxtFile.content)

/-! Auxiliary definitions used by the proofs: closed forms of the
normalizer loops and concrete inputs for witnesses and counterexamples. -/

/-- Closed form of the inner loop of extractTextFromResult on one page:
every line text followed by a line break. -/
def linesBlock : List ReadLine → String
  | [] => ""
  | l :: ls => l.text ++ "\n" ++ linesBlock ls

/-- Closed form of the outer loop of extractTextFromResult: each page its
linesBlock followed by one extra line break. -/
def pagesBlock : List ReadPage → String
  | [] => ""
  | p :: ps => linesBlock (p.lines.getD []) ++ "\n" ++ pagesBlock ps

/-- First page of the two-page scenario: lines Hello and World. -/
def exPage1 : ReadPage := { lines := some [ { text := "Hello" }, { text := "World" } ] }

/-- Second page of the two-page scenario: single line Done. -/
def exPage2 : ReadPage := { lines := some [ { text := "Done" } ] }

/-- The two-page recognition result of the scenario in the specification. -/
def exResult : OcrResult :=
  { status := "succeeded", analyzeResult := some { readResults := some [exPage1, exPage2] } }

/-- A page with a single line of text a. -/
def cexPageA : ReadPage := { lines := some [ { text := "a" } ] }

/-- A page whose line list is present but empty. -/
def cexPageE : ReadPage := { lines := some [] }

/-- A page with a single line of text b. -/
def cexPageB : ReadPage := { lines := some [ { text := "b" } ] }

/-- A recognition result whose middle page has an empty line list. -/
def cexResult : OcrResult :=
  { status := "succeeded",
    analyzeResult := some { readResults := some [cexPageA, cexPageE, cexPageB] } }

/-- Response sequence that is running for two queries and then succeeds. -/
def respSucc : Nat → OcrResult :=
  fun i => { status := if i < 2 then "running" else "succeeded", analyzeResult := none }

/-- Response sequence whose very first response already succeeded. -/
def respImm : Nat → OcrResult :=
  fun _ => { status := "succeeded", analyzeResult := none }

/-- Response sequence that reports the terminal status failed at once. -/
def respFail : Nat → OcrResult :=
  fun _ => { status := "failed", analyzeResult := none }

/-- Response sequence that never leaves the running status. -/
def respRun : Nat → OcrResult :=
  fun _ => { status := "running", analyzeResult := none }

/-- A payments row for the gate witness: user u1, expiry at 5. -/
def pW : Payment :=
  { userId := "u1", stripeSessionId := "sess_w", stripeCustomerId := none, expiresAt := 5 }

/-- A checkout session for the webhook witness: session sess_123 paid by
user u1. -/
def sessW : CheckoutSession :=
  { id := "sess_123", customer := none, metadataUserId := some "u1" }

/-- A completed-checkout event whose metadata carries no user identifier. -/
def eventNoUser : StripeEvent :=
  { type := "checkout.session.completed",
    session := { id := "sess_n", customer := none, metadataUserId := none } }

/-! Helper lemmas on strings. -/

/-- Appending strings is associative. -/
theorem strAppendAssoc (a b c : String) : a ++ b ++ c = a ++ (b ++ c) := by
  apply String.ext
  simp [String.data_append, List.append_assoc]

/-- Appending the empty string on the right is the identity. -/
theorem strAppendEmpty (a : String) : a ++ "" = a := by
  apply String.ext
  simp [String.data_append]

/-- Appending the empty string on the left is the identity. -/
theorem strEmptyAppend (a : String) : "" ++ a = a := by
  apply String.ext
  simp [String.data_append]

/-- The character data of a single line break. -/
theorem dataNl : ("\n" : String).data = ['\n'] := rfl

/-- The character data of a blank-line separator. -/
theorem dataNlNl : ("\n\n" : String).data = ['\n', '\n'] := rfl

/-- Dropping under a predicate skips over a whole block that satisfies
it. -/
theorem dropWhile_all {α : Type} (p : α → Bool) (w l : List α)
    (hw : ∀ c ∈ w, p c = true) :
    (w ++ l).dropWhile p = l.dropWhile p := by
  induction w with
  | nil => rfl
  | cons c w ih =>
    have hc : p c = true := hw c (List.mem_cons_self c w)
    simp only [List.cons_append, List.dropWhile_cons, hc, if_pos]
    exact ih (fun x hx => hw x (List.mem_cons_of_mem c hx))

/-- Trimming absorbs a trailing blank-line separator. -/
theorem jsTrim_append_nlnl (s : String) : jsTrim (s ++ "\n\n") = jsTrim s := by
  unfold jsTrim
  apply String.ext
  simp only [String.data_append, dataNlNl]
  rw [List.dropWhile_append]
  by_cases hemp : (s.data.dropWhile isJsWs).isEmpty = true
  · have hnil : s.data.dropWhile isJsWs = [] := by
      simpa [List.isEmpty_iff] using hemp
    rw [if_pos hemp, hnil]
    rfl
  · rw [if_neg hemp, List.reverse_append]
    rw [dropWhile_all isJsWs (['\n', '\n'].reverse) _ (by decide)]

/-! Claim C1. -/

/-- C1 counterexample: a PNG upload is submitted with the Content-Type
header application/octet-stream, not the image media type image/png that
the claim requires. -/
theorem c1_image_content_type_cex :
    submissionContentType "image/png" = some "application/octet-stream" ∧
    submissionContentType "image/png" ≠ some "image/png" := by
  decide

/-- C1 (amended): a PDF upload is submitted to the recognition endpoint
with Content-Type application/pdf, and every image upload (image/png,
image/jpeg, or image/jpg) is submitted with Content-Type
application/octet-stream, regardless of the image media type. -/
theorem c1_submission_content_types :
    submissionContentType "application/pdf" = some "application/pdf" ∧
    submissionContentType "image/png" = some imageSubmitContentType ∧
    submissionContentType "image/jpeg" = some imageSubmitContentType ∧
    submissionContentType "image/jpg" = some imageSubmitContentType ∧
    imageSubmitContentType = "application/octet-stream" := by
  decide

/-! Claim C8. -/

/-- C8: an upload whose declared media type is none of the supported types
is rejected by the dispatch with the unsupported-type error message, which
lists the accepted types, and no outbound request to the recognition
service is made. -/
theorem c8_unsupported_rejected (m : String)
    (h1 : m ≠ "application/pdf") (h2 : m ≠ "image/png") (h3 : m ≠ "image/jpeg")
    (h4 : m ≠ "image/jpg") (h5 : m ≠ "text/plain") :
    ocrDispatch m = .rejectUnsupported UNSUPPORTED_MESSAGE ∧
    submissionContentType m = none ∧
    UNSUPPORTED_MESSAGE =
      "Unsupported file type. Please upload PDF, PNG, JPG, or TXT files." := by
  have b1 : (m == "application/pdf") = false := by simp [h1]
  have b2 : (m == "image/png") = false := by simp [h2]
  have b3 : (m == "image/jpeg") = false := by simp [h3]
  have b4 : (m == "image/jpg") = false := by simp [h4]
  have b5 : (m == "text/plain") = false := by simp [h5]
  refine ⟨?_, ?_, rfl⟩
  · simp [ocrDispatch, b1, b2, b3, b4, b5]
  · simp [submissionContentType, ocrDispatch, b1, b2, b3, b4, b5]

/-- C8 witness: a Word-document media type is rejected with the
unsupported-type message and produces no outbound submission. -/
theorem c8_witness :
    ocrDispatch "application/msword" = .rejectUnsupported UNSUPPORTED_MESSAGE ∧
    submissionContentType "application/msword" = none ∧
    UNSUPPORTED_MESSAGE =
      "Unsupported file type. Please upload PDF, PNG, JPG, or TXT files." :=
  c8_unsupported_rejected "application/msword"
    (by decide) (by decide) (by decide) (by decide) (by decide)

/-! Claim C9. -/

/-- C9: combining text files concatenates the file contents in exactly the
list order, with the fixed separator between consecutive files: the empty
list gives the empty string, a singleton gives its content, and a longer
list gives the head content, the separator, then the combination of the
rest; in particular files reordered to B, A, C combine to B, separator, A,
separator, C. -/
theorem c9_combine_order (x y A B C : String) (rest : List TxtFile) :
    handleCombineFiles [] = "" ∧
    handleCombineFiles [{ content := x }] = x ∧
    handleCombineFiles ({ content := x } :: { content := y } :: rest) =
      x ++ FILE_SEPARATOR ++ handleCombineFiles ({ content := y } :: rest) ∧
    handleCombineFiles [{ content := B }, { content := A }, { content := C }] =
      B ++ FILE_SEPARATOR ++ A ++ FILE_SEPARATOR ++ C := by
  refine ⟨rfl, rfl, rfl, ?_⟩
  show B ++ FILE_SEPARATOR ++ (A ++ FILE_SEPARATOR ++ C) =
    B ++ FILE_SEPARATOR ++ A ++ FILE_SEPARATOR ++ C
  simp [strAppendAssoc]

/-! Claim C10. -/

/-- C10: the final 200 reply of the OCR endpoint carries the requested
page count and a never-empty text field: the placeholder message when the
extracted text is empty, the extracted text itself otherwise. -/
theorem c10_no_empty_text (text : String) (pages : Nat) :
    ocrRespond text pages =
      { text := if text = "" then NO_TEXT_MESSAGE else text, pages := pages } ∧
    (∀ t p, ocrRespond text pages = { text := t, pages := p } →
      t ≠ "" ∧ p = pages) := by
  have hiff : (text.length == 0) = true ↔ text = "" := by
    constructor
    · intro h
      have : text.length = 0 := by simpa using h
      exact String.ext (List.eq_nil_of_length_eq_zero this)
    · intro h
      subst h
      rfl
  constructor
  · by_cases h : text = ""
    · subst h
      rfl
    · have hb : (text.length == 0) = false := by
        rcases Bool.eq_false_or_eq_true (text.length == 0) with hb | hb
        · exact absurd (hiff.mp hb) h
        · exact hb
      simp [ocrRespond, hb, h]
  · intro t p heq
    by_cases h : text = ""
    · subst h
      have : ({ text := NO_TEXT_MESSAGE, pages := pages } : OcrReply) =
          { text := t, pages := p } := by
        simpa [ocrRespond] using heq
      have ht : t = NO_TEXT_MESSAGE := by
        cases this
        rfl
      have hp : p = pages := by
        cases this
        rfl
      subst ht
      exact ⟨by decide, hp⟩
    · have hb : (text.length == 0) = false := by
        rcases Bool.eq_false_or_eq_true (text.length == 0) with hb | hb
        · exact absurd (hiff.mp hb) h
        · exact hb
      have : ({ text := text, pages := pages } : OcrReply) = { text := t, pages := p } := by
        simpa [ocrRespond, hb] using heq
      cases this
      exact ⟨h, rfl⟩

/-- C10 witness: on empty extracted text with page count 3 the reply is a
200 carrying the placeholder message, which is not the empty string. -/
theorem c10_witness :
    ocrRespond "" 3 = { text := NO_TEXT_MESSAGE, pages := 3 } ∧ NO_TEXT_MESSAGE ≠ "" :=
  ⟨by simpa using (c10_no_empty_text "" 3).1,
    ((c10_no_empty_text "" 3).2 NO_TEXT_MESSAGE 3
      (by simpa using (c10_no_empty_text "" 3).1)).1⟩


/-! Helper lemmas for the access gate and the webhook. -/

/-- Characterization of hasValidAccess: true exactly when some payments
row of the user has an expiry strictly after now. -/
theorem hasValidAccess_iff (now : Int) (u : String) (db : List Payment) :
    hasValidAccess now u db = true ↔ ∃ p ∈ db, p.userId = u ∧ now < p.expiresAt := by
  unfold hasValidAccess
  simp only [gt_iff_lt, decide_eq_true_eq, List.length_take, lt_min_iff, List.length_pos]
  constructor
  · intro h
    rcases h with ⟨-, hne⟩
    rcases List.exists_mem_of_ne_nil _ hne with ⟨p, hp⟩
    rcases List.mem_filter.mp hp with ⟨hmem, hcond⟩
    have hcond2 : p.userId = u ∧ now < p.expiresAt := by simpa using hcond
    exact ⟨p, hmem, hcond2⟩
  · rintro ⟨p, hmem, hu, hlt⟩
    refine ⟨Nat.zero_lt_one, ?_⟩
    intro hnil
    have := List.filter_eq_nil_iff.mp hnil p hmem
    simp [hu, hlt] at this

/-- A grant for a session identifier already present in the payments table
leaves the table unchanged. -/
theorem grant_unchanged (t : Int) (s : CheckoutSession) (d : List Payment)
    (h : 0 < sessionCount d s.id) : grantEntitlement t s d = d := by
  have hne : d.filter (fun p => p.stripeSessionId == s.id) ≠ [] := by
    intro hnil
    unfold sessionCount at h
    rw [hnil] at h
    simp at h
  have hlen : ((d.filter (fun p => p.stripeSessionId == s.id)).take 1).length ≠ 0 := by
    simp only [List.length_take]
    intro hz
    rcases Nat.min_eq_zero_iff.mp hz with h1 | h2
    · exact absurd h1 (by decide)
    · exact hne (List.eq_nil_of_length_eq_zero h2)
  have hb : ((((d.filter (fun p => p.stripeSessionId == s.id)).take 1).length == 0))
      = false := by
    simpa using hlen
  cases hm : s.metadataUserId with
  | none => simp [grantEntitlement, hm]
  | some u =>
    simp [grantEntitlement, hm, hb]
    rcases List.exists_mem_of_ne_nil _ hne with ⟨q, hq⟩
    rcases List.mem_filter.mp hq with ⟨hqd, hqs⟩
    exact ⟨q, hqd, by simpa using hqs⟩

/-- A grant for a fresh session identifier appends exactly one payments
row carrying that identifier. -/
theorem grant_inserts (t : Int) (s : CheckoutSession) (u : String) (d : List Payment)
    (hu : s.metadataUserId = some u) (h0 : sessionCount d s.id = 0) :
    sessionCount (grantEntitlement t s d) s.id = 1 := by
  have hnil : d.filter (fun p => p.stripeSessionId == s.id) = [] := by
    unfold sessionCount at h0
    exact List.eq_nil_of_length_eq_zero h0
  unfold grantEntitlement
  rw [hu, hnil]
  simp only [List.take_nil, List.length_nil]
  rw [if_pos (show ((0 : Nat) == 0) = true from rfl)]
  unfold sessionCount
  rw [List.filter_append, hnil]
  simp

/-- Repeated grants on a table that already holds the session identifier
leave it unchanged. -/
theorem grant_foldl_unchanged (s : CheckoutSession) (ts : List Int) (d : List Payment)
    (h : 0 < sessionCount d s.id) :
    ts.foldl (fun x t => grantEntitlement t s x) d = d := by
  induction ts with
  | nil => rfl
  | cons t ts ih =>
    simp only [List.foldl_cons]
    rw [grant_unchanged t s d h]
    exact ih

/-! Claim C5. -/

/-- C5: the webhook grant is idempotent per session identifier. On a table
with no row for the session, one delivery inserts exactly one row for it;
on a table already holding such a row, a delivery changes nothing; and any
nonempty sequence of deliveries of the same event leaves exactly one row
for the session identifier. -/
theorem c5_webhook_idempotent (s : CheckoutSession) (u : String) (db : List Payment)
    (hu : s.metadataUserId = some u) :
    (∀ now, sessionCount db s.id = 0 →
      sessionCount (grantEntitlement now s db) s.id = 1) ∧
    (∀ now, 0 < sessionCount db s.id → grantEntitlement now s db = db) ∧
    (∀ times : List Int, sessionCount db s.id = 0 → times ≠ [] →
      sessionCount (times.foldl (fun d t => grantEntitlement t s d) db) s.id = 1) := by
  refine ⟨fun now h0 => grant_inserts now s u db hu h0,
    fun now h => grant_unchanged now s db h, ?_⟩
  intro times h0 hne
  cases times with
  | nil => exact absurd rfl hne
  | cons t ts =>
    simp only [List.foldl_cons]
    have h1 : sessionCount (grantEntitlement t s db) s.id = 1 :=
      grant_inserts t s u db hu h0
    rw [grant_foldl_unchanged s ts _ (by rw [h1]; decide)]
    exact h1

/-- C5 witness: delivering the completed-checkout event for session
sess_123 twice, starting from an empty payments table, leaves exactly one
row for that session identifier. -/
theorem c5_witness :
    sessionCount (List.foldl (fun d t => grantEntitlement t sessW d) [] [0, 5]) sessW.id
      = 1 :=
  (c5_webhook_idempotent sessW "u1" [] rfl).2.2 [0, 5] rfl (by decide)

/-! Claim C6. -/

/-- C6: the OCR access gate lets an unauthenticated caller proceed; an
authenticated caller proceeds exactly when some payments row of that user
expires strictly after now, and is denied otherwise; consequently with a
single payments row the identical request one instant before its expiry
proceeds and the request at its expiry is denied. -/
theorem c6_access_gate (now : Int) (u : String) (db : List Payment) (p : Payment) :
    ocrAccessGate none now db = .proceed ∧
    (ocrAccessGate (some u) now db = .proceed ↔
      ∃ q ∈ db, q.userId = u ∧ now < q.expiresAt) ∧
    (ocrAccessGate (some u) now db = .accessDenied ↔
      ¬ ∃ q ∈ db, q.userId = u ∧ now < q.expiresAt) ∧
    (p.userId = u →
      ocrAccessGate (some u) (p.expiresAt - 1) [p] = .proceed ∧
      ocrAccessGate (some u) p.expiresAt [p] = .accessDenied) := by
  refine ⟨rfl, ?_, ?_, ?_⟩
  · constructor
    · intro h
      cases hv : hasValidAccess now u db with
      | true => exact (hasValidAccess_iff now u db).mp hv
      | false => simp [ocrAccessGate, hv] at h
    · intro hex
      have hv := (hasValidAccess_iff now u db).mpr hex
      simp [ocrAccessGate, hv]
  · constructor
    · intro h hex
      have hv := (hasValidAccess_iff now u db).mpr hex
      simp [ocrAccessGate, hv] at h
    · intro hne
      have hv : hasValidAccess now u db = false := by
        cases hvv : hasValidAccess now u db with
        | false => rfl
        | true => exact absurd ((hasValidAccess_iff now u db).mp hvv) hne
      simp [ocrAccessGate, hv]
  · intro hpu
    constructor
    · have hv : hasValidAccess (p.expiresAt - 1) u [p] = true :=
        (hasValidAccess_iff _ u [p]).mpr
          ⟨p, List.mem_singleton_self p, hpu, by omega⟩
      simp [ocrAccessGate, hv]
    · have hv : hasValidAccess p.expiresAt u [p] = false := by
        cases hvv : hasValidAccess p.expiresAt u [p] with
        | false => rfl
        | true =>
          rcases (hasValidAccess_iff _ u [p]).mp hvv with ⟨q, hq, -, hlt⟩
          rw [List.mem_singleton] at hq
          subst hq
          exact absurd hlt (by omega)
      simp [ocrAccessGate, hv]

/-- C6 witness: with the single payments row of user u1 expiring at 5, the
gate admits the request at time 4 and denies the identical request at
time 5. -/
theorem c6_witness :
    ocrAccessGate (some "u1") (pW.expiresAt - 1) [pW] = .proceed ∧
    ocrAccessGate (some "u1") pW.expiresAt [pW] = .accessDenied :=
  (c6_access_gate 0 "u1" [pW] pW).2.2.2 rfl

/-! Claim C7. -/

/-- C7: when the signature header, the configured secret, the raw body, or
the signature verification fails, the webhook replies 400 and leaves the
payments table unchanged; once all verification inputs pass, the route
always replies with the acknowledgement, and a completed-checkout event
without a user identifier in its metadata is acknowledged with the table
unchanged. -/
theorem c7_webhook_ack (sig secret raw valid : Bool) (e : StripeEvent) (now : Int)
    (db : List Payment) :
    ((sig = false ∨ secret = false ∨ raw = false ∨ valid = false) →
      (stripeWebhook sig secret raw valid e now db).2 = db ∧
      ∃ msg, (stripeWebhook sig secret raw valid e now db).1 = .badRequest msg) ∧
    (sig = true → secret = true → raw = true → valid = true →
      (stripeWebhook sig secret raw valid e now db).1 = .acknowledged) ∧
    (sig = true → secret = true → raw = true → valid = true →
      e.session.metadataUserId = none →
      stripeWebhook sig secret raw valid e now db = (.acknowledged, db)) := by
  refine ⟨?_, ?_, ?_⟩
  · cases sig <;> cases secret <;> cases raw <;> cases valid <;> intro h <;>
      (try simp [stripeWebhook]) <;> rcases h with h | h | h | h <;> simp at h
  · intro hs hc hr hv
    subst hs
    subst hc
    subst hr
    subst hv
    simp [stripeWebhook]
  · intro hs hc hr hv hm
    subst hs
    subst hc
    subst hr
    subst hv
    have hg : grantEntitlement now e.session db = db := by
      unfold grantEntitlement
      rw [hm]
    simp [stripeWebhook, hg]

/-- C7 witness: with an invalid signature the webhook leaves the empty
table unchanged and replies 400; and with all verification inputs passing,
the no-user-identifier completed-checkout event is acknowledged with the
table unchanged. -/
theorem c7_witness :
    ((stripeWebhook true true true false eventNoUser 0 []).2 = [] ∧
      ∃ msg, (stripeWebhook true true true false eventNoUser 0 []).1 = .badRequest msg) ∧
    stripeWebhook true true true true eventNoUser 0 [] = (.acknowledged, []) :=
  ⟨(c7_webhook_ack true true true false eventNoUser 0 []).1 (Or.inr (Or.inr (Or.inr rfl))),
    (c7_webhook_ack true true true true eventNoUser 0 []).2.2 rfl rfl rfl rfl rfl⟩

/-! Helper lemmas for the poll loop. -/

/-- Unfolding of pollAux with no remaining attempts. -/
theorem pollAux_zero (responses : Nat → OcrResult) (attempts : Nat) :
    pollAux responses 0 attempts = ([], .recognitionTimeout) := rfl

/-- Unfolding of one iteration of pollAux. -/
theorem pollAux_succ (responses : Nat → OcrResult) (fuel attempts : Nat) :
    pollAux responses (fuel + 1) attempts =
      if isNonTerminal (responses attempts).status then
        (.delay POLLING_INTERVAL :: .query attempts ::
            (pollAux responses fuel (attempts + 1)).1,
          (pollAux responses fuel (attempts + 1)).2)
      else
        ([.delay POLLING_INTERVAL, .query attempts],
          if (responses attempts).status == "succeeded" then .payload (responses attempts)
          else .recognitionFailed (responses attempts).status) := rfl

/-- Unfolding of queryCountAux with no remaining attempts. -/
theorem queryCountAux_zero (responses : Nat → OcrResult) (attempts : Nat) :
    queryCountAux responses 0 attempts = 0 := rfl

/-- Unfolding of one iteration of queryCountAux. -/
theorem queryCountAux_succ (responses : Nat → OcrResult) (fuel attempts : Nat) :
    queryCountAux responses (fuel + 1) attempts =
      if isNonTerminal (responses attempts).status then
        queryCountAux responses fuel (attempts + 1) + 1
      else 1 := rfl

/-- With at least one attempt left the loop issues at least one query. -/
theorem queryCountAux_pos (responses : Nat → OcrResult) (fuel attempts : Nat) :
    0 < queryCountAux responses (fuel + 1) attempts := by
  rw [queryCountAux_succ]
  by_cases h : isNonTerminal (responses attempts).status = true
  · rw [if_pos h]
    omega
  · rw [if_neg h]
    omega

/-- Structure of one run of the poll loop, for every fuel and starting
attempt index: the query count is bounded by the fuel, the event trace is
one delay and one query per polled index in increasing order, every
response except possibly the last polled one is non-terminal, and the loop
stops directly after any terminal response. -/
theorem pollAux_spec (responses : Nat → OcrResult) :
    ∀ fuel start,
      queryCountAux responses fuel start ≤ fuel ∧
      (pollAux responses fuel start).1 =
        (List.range' start (queryCountAux responses fuel start)).flatMap
          (fun i => [.delay POLLING_INTERVAL, .query i]) ∧
      (∀ i, i + 1 < queryCountAux responses fuel start →
        isNonTerminal (responses (start + i)).status = true) ∧
      (∀ i, i < queryCountAux responses fuel start →
        isNonTerminal (responses (start + i)).status = false →
        queryCountAux responses fuel start = i + 1) := by
  intro fuel
  induction fuel with
  | zero =>
    intro start
    refine ⟨Nat.le_refl 0, rfl, ?_, ?_⟩
    · intro i hi
      rw [queryCountAux_zero] at hi
      exact absurd hi (by omega)
    · intro i hi
      rw [queryCountAux_zero] at hi
      exact absurd hi (by omega)
  | succ fuel ih =>
    intro start
    by_cases hnt : isNonTerminal (responses start).status = true
    · have hq : queryCountAux responses (fuel + 1) start
          = queryCountAux responses fuel (start + 1) + 1 := by
        rw [queryCountAux_succ, if_pos hnt]
      obtain ⟨ih1, ih2, ih3, ih4⟩ := ih (start + 1)
      refine ⟨by omega, ?_, ?_, ?_⟩
      · rw [pollAux_succ, if_pos hnt]
        show _ :: _ :: (pollAux responses fuel (start + 1)).1 = _
        rw [ih2, hq, List.range'_succ]
        simp
      · intro i hi
        rw [hq] at hi
        cases i with
        | zero =>
          rw [Nat.add_zero]
          exact hnt
        | succ j =>
          have hj := ih3 j (by omega)
          rwa [show start + 1 + j = start + (j + 1) by omega] at hj
      · intro i hi hterm
        cases i with
        | zero =>
          rw [Nat.add_zero] at hterm
          rw [hnt] at hterm
          exact absurd hterm (by decide)
        | succ j =>
          rw [hq] at hi ⊢
          rw [show start + (j + 1) = start + 1 + j by omega] at hterm
          have := ih4 j (by omega) hterm
          omega
    · have hnt2 : isNonTerminal (responses start).status = false := by
        cases h : isNonTerminal (responses start).status
        · rfl
        · exact absurd h hnt
      have hq : queryCountAux responses (fuel + 1) start = 1 := by
        rw [queryCountAux_succ, if_neg hnt]
      refine ⟨by omega, ?_, ?_, ?_⟩
      · rw [pollAux_succ, if_neg hnt, hq]
        simp [List.range'_succ]
      · intro i hi
        rw [hq] at hi
        exact absurd hi (by omega)
      · intro i hi _
        rw [hq] at hi ⊢
        omega

/-- The poll loop never reaches the timeout before exhausting the fuel:
if every response the loop can see is non-terminal, the outcome is the
timeout error. -/
theorem pollAux_timeout (responses : Nat → OcrResult) :
    ∀ fuel start,
      (∀ i, i < fuel → isNonTerminal (responses (start + i)).status = true) →
      (pollAux responses fuel start).2 = .recognitionTimeout := by
  intro fuel
  induction fuel with
  | zero =>
    intro start _
    rfl
  | succ fuel ih =>
    intro start h
    have h0 : isNonTerminal (responses start).status = true := by
      have := h 0 (by omega)
      rwa [Nat.add_zero] at this
    rw [pollAux_succ, if_pos h0]
    exact ih (start + 1) (fun i hi => by
      have := h (i + 1) (by omega)
      rwa [show start + (i + 1) = start + 1 + i by omega] at this)

/-- On the first terminal response within the fuel bound, the loop stops
with the payload when that response succeeded and with the failure error
naming its status otherwise. -/
theorem pollAux_terminal (responses : Nat → OcrResult) :
    ∀ fuel start m, m < fuel →
      (∀ i, i < m → isNonTerminal (responses (start + i)).status = true) →
      isNonTerminal (responses (start + m)).status = false →
      (pollAux responses fuel start).2 =
        (if (responses (start + m)).status == "succeeded" then .payload (responses (start + m))
          else .recognitionFailed (responses (start + m)).status) := by
  intro fuel
  induction fuel with
  | zero =>
    intro start m hm _ _
    exact absurd hm (Nat.not_lt_zero m)
  | succ fuel ih =>
    intro start m hm hpre hterm
    cases m with
    | zero =>
      rw [Nat.add_zero] at hterm
      rw [pollAux_succ, if_neg (by simp [hterm])]
      simp only [Nat.add_zero]
    | succ j =>
      have h0 : isNonTerminal (responses start).status = true := by
        have := hpre 0 (by omega)
        rwa [Nat.add_zero] at this
      rw [pollAux_succ, if_pos h0]
      rw [show start + (j + 1) = start + 1 + j by omega] at hterm ⊢
      exact ih (start + 1) j (by omega)
        (fun i hi => by
          have := hpre (i + 1) (by omega)
          rwa [show start + (i + 1) = start + 1 + i by omega] at this)
        hterm

/-! Claim C2. -/

/-- C2: the poll loop issues at most MAX_POLLING_ATTEMPTS (120) status
queries; its event trace is exactly one POLLING_INTERVAL (1 second) delay
followed by one query, per polled index in increasing order; every
response before the last polled one is non-terminal, so the loop stops at
the first response whose status is neither running nor notStarted and
never polls after a terminal status; in particular a first response with
status succeeded ends the trace after a single delay and a single
query. -/
theorem c2_poll_bounded (responses : Nat → OcrResult) :
    queryCount responses ≤ MAX_POLLING_ATTEMPTS ∧
    (pollForResult responses).1 =
      (List.range (queryCount responses)).flatMap
        (fun i => [.delay POLLING_INTERVAL, .query i]) ∧
    (∀ i, i + 1 < queryCount responses → isNonTerminal (responses i).status = true) ∧
    (∀ i, i < queryCount responses → isNonTerminal (responses i).status = false →
      queryCount responses = i + 1) ∧
    ((responses 0).status = "succeeded" →
      (pollForResult responses).1 = [.delay POLLING_INTERVAL, .query 0]) := by
  obtain ⟨h1, h2, h3, h4⟩ := pollAux_spec responses MAX_POLLING_ATTEMPTS 0
  refine ⟨h1, ?_, ?_, ?_, ?_⟩
  · rw [List.range_eq_range']
    exact h2
  · intro i hi
    have := h3 i hi
    rwa [Nat.zero_add] at this
  · intro i hi ht
    exact h4 i hi (by rwa [Nat.zero_add])
  · intro hs
    have hterm : isNonTerminal (responses 0).status = false := by
      rw [hs]
      rfl
    have hpos : 0 < queryCount responses := queryCountAux_pos responses 119 0
    have hq1 : queryCountAux responses MAX_POLLING_ATTEMPTS 0 = 1 :=
      h4 0 hpos (by rwa [Nat.zero_add])
    show (pollAux responses MAX_POLLING_ATTEMPTS 0).1 = _
    rw [h2, hq1]
    simp [List.range'_succ]

/-- C2 witness: on the response sequence running, running, succeeded the
loop stays within the bound, sees a non-terminal first response, issues
exactly three queries, and on an immediately succeeded sequence the trace
is a single delay and a single query. -/
theorem c2_witness :
    queryCount respSucc ≤ MAX_POLLING_ATTEMPTS ∧
    isNonTerminal (respSucc 0).status = true ∧
    queryCount respSucc = 2 + 1 ∧
    (pollForResult respImm).1 = [.delay POLLING_INTERVAL, .query 0] :=
  ⟨(c2_poll_bounded respSucc).1,
    (c2_poll_bounded respSucc).2.2.1 0 (by decide),
    (c2_poll_bounded respSucc).2.2.2.1 2 (by decide) (by decide),
    (c2_poll_bounded respImm).2.2.2.2 rfl⟩

/-! Claim C3. -/

/-- C3: the statuses running and notStarted are exactly the non-terminal
ones and only continue polling; when the first terminal response arrives
at index m within the attempt bound, the loop returns that response as
payload exactly when its status is succeeded, and otherwise fails with the
recognition-failure error naming that status; and when every response
within the bound is non-terminal, the loop fails with the timeout
error. -/
theorem c3_poll_outcome (responses : Nat → OcrResult) :
    (∀ s, isNonTerminal s = true ↔ (s = "running" ∨ s = "notStarted")) ∧
    (∀ m, m < MAX_POLLING_ATTEMPTS →
      (∀ i, i < m → isNonTerminal (responses i).status = true) →
      isNonTerminal (responses m).status = false →
      (pollForResult responses).2 =
        (if (responses m).status = "succeeded" then .payload (responses m)
          else .recognitionFailed (responses m).status)) ∧
    ((∀ i, i < MAX_POLLING_ATTEMPTS → isNonTerminal (responses i).status = true) →
      (pollForResult responses).2 = .recognitionTimeout) := by
  refine ⟨?_, ?_, ?_⟩
  · intro s
    unfold isNonTerminal
    simp [Bool.or_eq_true, beq_iff_eq]
  · intro m hm hpre hterm
    have := pollAux_terminal responses MAX_POLLING_ATTEMPTS 0 m hm
      (fun i hi => by
        rw [Nat.zero_add]
        exact hpre i hi)
      (by rwa [Nat.zero_add])
    simp only [Nat.zero_add] at this
    show (pollAux responses MAX_POLLING_ATTEMPTS 0).2 = _
    rw [this]
    by_cases hs : (responses m).status = "succeeded"
    · rw [if_pos (beq_iff_eq.mpr hs), if_pos hs]
    · rw [if_neg (by simpa using hs), if_neg hs]
  · intro h
    exact pollAux_timeout responses MAX_POLLING_ATTEMPTS 0
      (fun i hi => by
        rw [Nat.zero_add]
        exact h i hi)

/-- C3 witness: a first response with terminal status failed makes the
loop fail naming that status, and an always-running sequence makes it fail
with the timeout error after the bound. -/
theorem c3_witness :
    (pollForResult respFail).2 = .recognitionFailed "failed" ∧
    (pollForResult respRun).2 = .recognitionTimeout := by
  constructor
  · have := (c3_poll_outcome respFail).2.1 0 (by decide)
      (fun i hi => absurd hi (Nat.not_lt_zero i)) (by decide)
    rw [if_neg (by decide)] at this
    exact this
  · exact (c3_poll_outcome respRun).2.2 (fun i _ => rfl)

/-! Helper lemmas for the normalizer. -/

/-- Collapsing two appended line breaks into the blank-line separator. -/
theorem strAppendNlNl (a : String) : a ++ "\n" ++ "\n" = a ++ "\n\n" := by
  apply String.ext
  simp [String.data_append, dataNl, dataNlNl]

/-- The inner loop of the normalizer appends linesBlock to its
accumulator. -/
theorem foldl_lineAppend (ls : List ReadLine) (acc : String) :
    ls.foldl (fun a l => a ++ l.text ++ "\n") acc = acc ++ linesBlock ls := by
  induction ls generalizing acc with
  | nil => simp [linesBlock, strAppendEmpty]
  | cons l ls ih =>
    rw [List.foldl_cons, ih]
    simp [linesBlock, strAppendAssoc]

/-- The outer loop of the normalizer appends pagesBlock to its
accumulator. -/
theorem foldl_pageAppend (ps : List ReadPage) (acc : String) :
    ps.foldl pageAppend acc = acc ++ pagesBlock ps := by
  induction ps generalizing acc with
  | nil => simp [pagesBlock, strAppendEmpty]
  | cons p ps ih =>
    rw [List.foldl_cons, ih]
    simp only [pageAppend]
    rw [foldl_lineAppend]
    simp [pagesBlock, strAppendAssoc]

/-- On a nonempty line list, the line-terminated block is the join of the
line texts with line breaks followed by one final line break. -/
theorem linesBlock_join (ls : List ReadLine) (h : ls ≠ []) :
    linesBlock ls = jsJoin "\n" (ls.map ReadLine.text) ++ "\n" := by
  induction ls with
  | nil => exact absurd rfl h
  | cons l ls ih =>
    cases ls with
    | nil => simp [linesBlock, jsJoin, strAppendEmpty]
    | cons l2 ls2 =>
      have ihne := ih (by simp)
      show l.text ++ "\n" ++ linesBlock (l2 :: ls2) = _
      rw [ihne]
      show _ = (l.text ++ "\n" ++ jsJoin "\n" (List.map ReadLine.text (l2 :: ls2))) ++ "\n"
      simp [strAppendAssoc]

/-- On a nonempty page list all of whose pages have at least one line, the
page-terminated block is the blank-line join of the page texts followed by
one final blank-line separator. -/
theorem pagesBlock_join (ps : List ReadPage) (hne : ps ≠ [])
    (h : ∀ p ∈ ps, p.lines.getD [] ≠ []) :
    pagesBlock ps = jsJoin "\n\n" (ps.map specPageText) ++ "\n\n" := by
  induction ps with
  | nil => exact absurd rfl hne
  | cons p ps ih =>
    have hp := h p (by simp)
    cases ps with
    | nil =>
      show linesBlock (p.lines.getD []) ++ "\n" ++ pagesBlock [] = _
      rw [show pagesBlock [] = "" from rfl, strAppendEmpty, linesBlock_join _ hp,
        strAppendNlNl]
      rfl
    | cons p2 ps2 =>
      have ihh : pagesBlock (p2 :: ps2) =
          jsJoin "\n\n" ((p2 :: ps2).map specPageText) ++ "\n\n" :=
        ih (by simp) (fun q hq => h q (List.mem_cons_of_mem p hq))
      show linesBlock (p.lines.getD []) ++ "\n" ++ pagesBlock (p2 :: ps2) = _
      rw [ihh, linesBlock_join _ hp]
      show _ = (specPageText p ++ "\n\n" ++
        jsJoin "\n\n" ((p2 :: ps2).map specPageText)) ++ "\n\n"
      apply String.ext
      simp [String.data_append, dataNl, dataNlNl, List.append_assoc, specPageText]

/-! Claim C4. -/

/-- C4 counterexample: on a recognition result whose middle page has an
empty line list, the code produces the text a, blank line, b (three line
breaks total), while joining each page's lines with line breaks and
separating pages by blank lines, trimmed, produces four line breaks
between a and b; so the claimed description does not match the code on
this input. -/
theorem c4_cex :
    (extractTextFromResult cexResult).text = "a\n\n\nb" ∧
    specNormalizeText cexResult = "a\n\n\n\nb" ∧
    (extractTextFromResult cexResult).text ≠ specNormalizeText cexResult := by
  refine ⟨by decide, by decide, by decide⟩

/-- C4 (amended): for every recognition result in which each page has at
least one line, the normalizer returns exactly the pages joined by a blank
line, each page its lines joined by line breaks, trimmed of leading and
trailing whitespace, together with a page count equal to the number of
pages; a result with no pages (or with the fields absent) yields the empty
string and page count 0. The normalizer is a pure function of its
argument. (A page with an empty line list contributes one line break, not
an empty joined page, which is the only divergence from the unamended
claim.) -/
theorem c4_normalizer (result : OcrResult)
    (h : ∀ p ∈ readResultsOf result, p.lines.getD [] ≠ []) :
    (extractTextFromResult result).text = specNormalizeText result ∧
    (extractTextFromResult result).pages = (readResultsOf result).length ∧
    (readResultsOf result = [] →
      extractTextFromResult result = { text := "", pages := 0 }) := by
  refine ⟨?_, rfl, ?_⟩
  · show jsTrim ((readResultsOf result).foldl pageAppend "") = specNormalizeText result
    unfold specNormalizeText
    rw [foldl_pageAppend, strEmptyAppend]
    cases hps : readResultsOf result with
    | nil => rfl
    | cons p ps =>
      rw [hps] at h
      rw [pagesBlock_join _ (by simp) h, jsTrim_append_nlnl]
  · intro hnil
    show extractTextFromResult result = _
    simp only [extractTextFromResult, hnil]
    rfl

/-- C4 witness: the two-page scenario (page one lines Hello and World,
page two line Done) satisfies the every-page-nonempty hypothesis, the code
output equals the spec join, and both are the expected text with page
count 2. -/
theorem c4_witness :
    (∀ p ∈ readResultsOf exResult, p.lines.getD [] ≠ []) ∧
    (extractTextFromResult exResult).text = specNormalizeText exResult ∧
    extractTextFromResult exResult = { text := "Hello\nWorld\n\nDone", pages := 2 } :=
  ⟨by decide, (c4_normalizer exResult (by decide)).1, by decide⟩
